import Mathlib

/-!
Verification of the MyFavoriteDouble MATLAB/C++ bridge.

The repository consists of `myClass.hpp` (a complex-number value class with
real part `valueR` and imaginary part `valueI`, both C++ `double`) and
`myFavDouble_mex.cpp` (the mex entry point `mexFunction`, a string-dispatched
command interface).  The handle machinery (`class_handle.hpp`, providing
`createMatlabIdFromObj`, `recoverObjFromMatlabId`, `destroyObject`,
`checkValidity`) is not part of the repository sources; those four operations
are modelled from the specification's registry contract (spec section 4.1).

C++ `double` is modelled as `ℚ`: every operation the claims touch is a copy,
a comparison with zero, or a single addition, so no claim depends on
floating-point rounding.  A mex error (`mexErrMsgTxt` / `mexErrMsgIdAndTxt`)
aborts the call; in the model `mexFunction` returns the registry as it stood
at the abort together with the error, which is faithful because every
registration in the source is the final action of a success path.
-/

/-- The value class of myClass.hpp: a complex number held as a real part
`valueR` and an imaginary part `valueI` (both C++ `double`, modelled as `ℚ`). -/
structure myClass where
  valueR : ℚ
  valueI : ℚ
  deriving DecidableEq

/-- The main constructor `myClass()` (myClass.hpp line 18): 0 + 0i. -/
def myClass.mkDefault : myClass := ⟨0, 0⟩

/-- The copy constructor `myClass(const myClass& a)` (myClass.hpp line 21):
copies both fields. -/
def myClass.copyCtor (a : myClass) : myClass := ⟨a.valueR, a.valueI⟩

/-- The state of `*this` after `operator+=(const myClass& b)`
(myClass.hpp lines 101-106): both fields accumulate. -/
def myClass.opPlusEq (a b : myClass) : myClass :=
  ⟨a.valueR + b.valueR, a.valueI + b.valueI⟩

/-- The value returned by `operator+(const myClass& b)`
(myClass.hpp lines 108-114): a default-constructed result whose fields are
set to the component sums. -/
def myClass.opPlus (a b : myClass) : myClass :=
  ⟨a.valueR + b.valueR, a.valueI + b.valueI⟩

/-- The value of the freshly heap-allocated object returned (by reference) by
`plus_new(const myClass& b)` (myClass.hpp lines 131-137). -/
def myClass.plus_new (a b : myClass) : myClass :=
  ⟨a.valueR + b.valueR, a.valueI + b.valueI⟩

/-- The value of the object returned (by pointer) by
`plus_new_ptr(const myClass& b)` (myClass.hpp lines 142-149): it simply
forwards to `plus_new`. -/
def myClass.plus_new_ptr (a b : myClass) : myClass := a.plus_new b

/-- What `display()` prints (myClass.hpp lines 59-65): only the real part when
the imaginary part is zero, otherwise both parts. -/
def myClass.displayOut (a : myClass) : ℚ × Option ℚ :=
  if a.valueI = 0 then (a.valueR, none) else (a.valueR, some a.valueI)

/-- A MATLAB array crossing the mex boundary: a character string, a numeric
m-by-n matrix with real data and optionally imaginary data (mxGetPi is NULL
exactly when `im = none`), or the opaque handle token issued by the registry
for a live object. -/
inductive MxArray where
  | str (s : String)
  | num (m n : Nat) (re : List ℚ) (im : Option (List ℚ))
  | handleTok (k : Nat)
  deriving DecidableEq

/-- The ways a mex call aborts: `mexErrMsgTxt(msg)`, `mexErrMsgIdAndTxt(id, msg)`,
and the registry's rejection of a handle that does not resolve (spec section 7
calls this error kind `InvalidHandle`; its raising code lives in the
class_handle.hpp file, which is absent from the sources). -/
inductive MexErr where
  | errMsgTxt (msg : String)
  | errMsgIdAndTxt (errId msg : String)
  | invalidHandle
  deriving DecidableEq

/- The error message strings of myFavDouble_mex.cpp and myClass.hpp, verbatim. -/

def msgFirstInput : String :=
  "First input should be a command string less than 64 characters long."

def msgNewOneOutput : String := "New: One output expected."

def msgNewTooMany : String := "New: Too many arguments."

def idInvalidNumInputs : String := "myClass:invalidNumInputs"

def msgInvalidNumInputs : String := "One input argument required."

def idMaxlhs : String := "myClass:maxlhs"

def msgMaxlhs : String := "Too many output arguments."

def idInputNotDouble : String := "myClass:inputNotDouble"

def msgInputNotDouble : String := "Input argument must be of type double."

def idInvalidSize : String := "myClass:invalidSize"

def msgInvalidSize : String := "Size [1 1] expected."

def msgDeleteWrongArgs : String := "Delete: Wrong number of arguments."

def msgSecondInput : String := "Second input not found."

def msgIsValidUnexpected : String := "isValid: Unexpected arguments."

def msgDoubleUnexpected : String := "double: Unexpected arguments."

def msgPlusUnexpected : String := "plus: Unexpected arguments."

def msgCommandNotRecognized : String := "Command not recognized."

/-- Construction from a MATLAB table, `myClass(const mxArray* prhs)`
(myClass.hpp lines 24-53).  The constructor reads the dimensions and the
real/imaginary data pointers, aborts with `myClass:invalidSize` unless the
array is 1-by-1, and otherwise copies the single entry; when the array is
real (no imaginary data) the imaginary part is set to 0. -/
def myClassOfMx (m n : Nat) (re : List ℚ) (im : Option (List ℚ)) :
    Except MexErr myClass :=
  if m ≠ 1 ∨ n ≠ 1 then .error (.errMsgIdAndTxt idInvalidSize msgInvalidSize)
  else
    .ok ⟨re.headD 0, match im with
                     | some pim => pim.headD 0
                     | none => 0⟩

/-- Modelled from the spec: the handle registry of class_handle.hpp, which is
absent from the sources.  Spec section 4.1: the registry owns all live
instances and maps a monotonically increasing identifier to each owned
instance; `next` is the next identifier to mint and `entries` the live
(identifier, instance) associations. -/
structure Registry where
  next : Nat
  entries : List (Nat × myClass)
  deriving DecidableEq

/-- Modelled from the spec: `register(value) -> Handle` (spec section 4.1)
stores the value under a freshly minted handle and returns the handle. -/
def Registry.register (r : Registry) (v : myClass) : Registry × Nat :=
  (⟨r.next + 1, (r.next, v) :: r.entries⟩, r.next)

/-- Modelled from the spec: `resolve(handle)` (spec section 4.1) returns the
instance registered under the handle, if any. -/
def Registry.resolve (r : Registry) (h : Nat) : Option myClass :=
  (r.entries.find? (fun p => p.1 == h)).map (fun p => p.2)

/-- Modelled from the spec: `release(handle)` (spec section 4.1) removes the
entry, failing (with `none`) when the handle is unknown or already released. -/
def Registry.release (r : Registry) (h : Nat) : Option Registry :=
  if (r.resolve h).isSome then
    some ⟨r.next, r.entries.filter (fun p => p.1 != h)⟩
  else none

/-- Well-formedness of the registry: every live identifier was minted before
`next`.  This holds of the empty registry and is preserved by `register` and
`release`; it is what makes a freshly minted handle distinct from every live
one. -/
def Registry.WF (r : Registry) : Prop := ∀ p ∈ r.entries, p.1 < r.next

instance (r : Registry) : Decidable r.WF := by
  unfold Registry.WF
  infer_instance

/-- Modelled from the spec: `createMatlabIdFromObj<myClass>` of
class_handle.hpp (absent from the sources) registers the newly constructed
instance and hands its freshly minted handle back to MATLAB as an opaque
token (spec sections 4.1 and 6). -/
def createMatlabIdFromObj (r : Registry) (v : myClass) : Registry × MxArray :=
  ((r.register v).1, .handleTok (r.register v).2)

/-- Modelled from the spec: `recoverObjFromMatlabId<myClass>` of
class_handle.hpp (absent from the sources) decodes the token and resolves it;
a token that is not a handle token, or whose identifier is not live, fails
with `InvalidHandle` (spec section 4.1 `resolve`).  The dispatcher reads the
token from a `prhs` slot that may be past `nrhs`; that out-of-range read
(modelled as `none`) holds no valid token and is likewise rejected. -/
def recoverObjFromMatlabId (r : Registry) (a : Option MxArray) :
    Except MexErr myClass :=
  match a with
  | some (.handleTok k) =>
    match r.resolve k with
    | some v => .ok v
    | none => .error .invalidHandle
  | _ => .error .invalidHandle

/-- Modelled from the spec: `destroyObject<myClass>` of class_handle.hpp
(absent from the sources) releases the handle, failing with `InvalidHandle`
when it is unknown or already released (spec section 4.1 `release`). -/
def destroyObject (r : Registry) (a : Option MxArray) :
    Except MexErr Registry :=
  match a with
  | some (.handleTok k) =>
    match r.release k with
    | some r2 => .ok r2
    | none => .error .invalidHandle
  | _ => .error .invalidHandle

/-- Modelled from the spec: `checkValidity<myClass>` of class_handle.hpp
(absent from the sources) is the non-throwing probe: true exactly when the
token is a live handle (spec section 4.1 `isValid`). -/
def checkValidity (r : Registry) (a : Option MxArray) : Bool :=
  match a with
  | some (.handleTok k) => (r.resolve k).isSome
  | _ => false

/-- What `toDouble()` returns (myClass.hpp lines 70-98): a 1-by-1 real matrix
when the imaginary part is zero, otherwise a 1-by-1 complex matrix. -/
def myClass.toDouble (a : myClass) : MxArray :=
  if a.valueI = 0 then .num 1 1 [a.valueR] none
  else .num 1 1 [a.valueR] (some [a.valueI])

/-- `mxGetString(prhs[0], cmd, sizeof(cmd))` with a 64-byte buffer
(myFavDouble_mex.cpp lines 27-28): succeeds exactly on a character array whose
string is shorter than 64 characters. -/
def mxGetString (a : MxArray) : Option String :=
  match a with
  | .str s => if s.length < 64 then some s else none
  | _ => none

deriving instance DecidableEq for Except

/-- The outcome of one call to `mexFunction`: the registry as the call leaves
it, the outputs `plhs` (or the error the call aborted with), and what
`display` printed, if anything. -/
structure MexResult where
  reg : Registry
  out : Except MexErr (List MxArray)
  printed : Option (ℚ × Option ℚ)
  deriving DecidableEq

/-- The dispatcher `mexFunction` of myFavDouble_mex.cpp (lines 24-217),
translated branch for branch.  `nlhs` is the number of requested outputs and
`prhs` the input arrays (`nrhs` is their count).  Notes tying the model to
the source:
the command string is read first (lines 27-29);
`new` checks `nlhs != 1`, then dispatches on `nrhs` (lines 32-60);
`newFromMatlab` checks `nrhs != 2`, `nlhs > 1`, `mxIsDouble` (a handle token
or a string is not a double array), then lets the `myClass` constructor copy
the data (lines 63-92) — the `mxGetNumberOfDimensions != 2` check cannot fire
in the model because every modelled numeric array is two-dimensional;
`delete` checks `nrhs != 2` and destroys (lines 95-104);
every remaining verb first requires `nrhs >= 2` (lines 107-108) and then
resolves `prhs[1]` (line 112) — including `isValid`;
`isValid` checks its argument counts and probes validity (lines 116-136);
`display` prints with no argument-count check at all (lines 140-143);
`double` checks only `nlhs != 1` (lines 147-154);
every verb after `double` resolves `prhs[2]` (line 159), an out-of-range read
when `nrhs = 2`;
`plus` checks `nlhs < 1 || nrhs < 2` and registers the sum (lines 163-213);
anything else aborts with `Command not recognized.` (line 216). -/
def mexFunction (reg : Registry) (nlhs : Nat) (prhs : List MxArray) :
    MexResult :=
  let nrhs := prhs.length
  match prhs.head? >>= mxGetString with
  | none => ⟨reg, .error (.errMsgTxt msgFirstInput), none⟩
  | some cmd =>
    if cmd = "new" then
      if nlhs ≠ 1 then ⟨reg, .error (.errMsgTxt msgNewOneOutput), none⟩
      else if nrhs = 1 then
        let p := createMatlabIdFromObj reg myClass.mkDefault
        ⟨p.1, .ok [p.2], none⟩
      else if nrhs = 2 then
        match recoverObjFromMatlabId reg prhs[1]? with
        | .error e => ⟨reg, .error e, none⟩
        | .ok inst =>
          let p := createMatlabIdFromObj reg inst.copyCtor
          ⟨p.1, .ok [p.2], none⟩
      else ⟨reg, .error (.errMsgTxt msgNewTooMany), none⟩
    else if cmd = "newFromMatlab" then
      if nrhs ≠ 2 then
        ⟨reg, .error (.errMsgIdAndTxt idInvalidNumInputs msgInvalidNumInputs), none⟩
      else if 1 < nlhs then
        ⟨reg, .error (.errMsgIdAndTxt idMaxlhs msgMaxlhs), none⟩
      else
        match prhs[1]? with
        | some (MxArray.num m n re im) =>
          match myClassOfMx m n re im with
          | .error e => ⟨reg, .error e, none⟩
          | .ok inst =>
            let p := createMatlabIdFromObj reg inst
            ⟨p.1, .ok [p.2], none⟩
        | _ => ⟨reg, .error (.errMsgIdAndTxt idInputNotDouble msgInputNotDouble), none⟩
    else if cmd = "delete" then
      if nrhs ≠ 2 then ⟨reg, .error (.errMsgTxt msgDeleteWrongArgs), none⟩
      else
        match destroyObject reg prhs[1]? with
        | .error e => ⟨reg, .error e, none⟩
        | .ok reg2 => ⟨reg2, .ok [], none⟩
    else if nrhs < 2 then ⟨reg, .error (.errMsgTxt msgSecondInput), none⟩
    else
      match recoverObjFromMatlabId reg prhs[1]? with
      | .error e => ⟨reg, .error e, none⟩
      | .ok inst1 =>
        if cmd = "isValid" then
          if nlhs < 1 ∨ 2 < nrhs then
            ⟨reg, .error (.errMsgTxt msgIsValidUnexpected), none⟩
          else
            ⟨reg, .ok [.num 1 1 [if checkValidity reg prhs[1]? then 1 else 0] none], none⟩
        else if cmd = "display" then
          ⟨reg, .ok [], some inst1.displayOut⟩
        else if cmd = "double" then
          if nlhs ≠ 1 then ⟨reg, .error (.errMsgTxt msgDoubleUnexpected), none⟩
          else ⟨reg, .ok [inst1.toDouble], none⟩
        else
          match recoverObjFromMatlabId reg prhs[2]? with
          | .error e => ⟨reg, .error e, none⟩
          | .ok inst2 =>
            if cmd = "plus" then
              if nlhs < 1 ∨ nrhs < 2 then
                ⟨reg, .error (.errMsgTxt msgPlusUnexpected), none⟩
              else
                let p := createMatlabIdFromObj reg (inst1.plus_new inst2)
                ⟨p.1, .ok [p.2], none⟩
            else ⟨reg, .error (.errMsgTxt msgCommandNotRecognized), none⟩

/-- A concrete registry for witnesses: one live object with handle 0 and value
1 + 2i, next fresh identifier 1. -/
def regW : Registry := ⟨1, [(0, ⟨1, 2⟩)]⟩

/-- A concrete registry for witnesses: two live objects, handle 0 with value
1 + 2i and handle 1 with value 3 + 5i. -/
def regW2 : Registry := ⟨2, [(0, ⟨1, 2⟩), (1, ⟨3, 5⟩)]⟩

/-- A resolvable handle was minted before `next`: the freshness lemma behind
every "the returned handle is new" conclusion. -/
theorem Registry.resolve_lt_next {r : Registry} (hWF : r.WF) {h : Nat}
    {v : myClass} (hres : r.resolve h = some v) : h < r.next := by
  unfold Registry.resolve at hres
  cases e : r.entries.find? (fun p => p.1 == h) with
  | none => rw [e] at hres; simp at hres
  | some p =>
    have hmem := List.mem_of_find?_eq_some e
    have hkey := List.find?_some e
    simp only [beq_iff_eq] at hkey
    have hlt := hWF p hmem
    omega

/-- Resolving the handle just minted by `register` yields the registered
value. -/
theorem Registry.resolve_register_self (r : Registry) (v : myClass) :
    ((r.register v).1).resolve (r.register v).2 = some v := by
  simp [Registry.register, Registry.resolve]

/-- Registering leaves every other handle resolving as before. -/
theorem Registry.resolve_register_other (r : Registry) (v : myClass) {h : Nat}
    (hne : h ≠ r.next) : ((r.register v).1).resolve h = r.resolve h := by
  unfold Registry.register Registry.resolve
  rw [List.find?_cons_of_neg]
  simp [Ne.symm hne]

/-- A token that `recoverObjFromMatlabId` rejects is also rejected by
`destroyObject`. -/
theorem destroyObject_error_of_unresolved (reg : Registry) (a : MxArray)
    (h : recoverObjFromMatlabId reg (some a) = .error .invalidHandle) :
    destroyObject reg (some a) = .error .invalidHandle := by
  cases a with
  | str s => rfl
  | num m n re im => rfl
  | handleTok k =>
    simp only [recoverObjFromMatlabId] at h
    cases e : reg.resolve k with
    | some v => simp [e] at h
    | none => simp [destroyObject, Registry.release, e]

/-- C1: the claim says `isValid` never fails, returning false for dead handles
without resolving the handle first.  The code does the opposite: mexFunction
resolves `prhs[1]` (myFavDouble_mex.cpp line 112) before reaching the
`isValid` branch (line 116), so probing a dead handle aborts the call with
`InvalidHandle` instead of returning false — even though the registry probe
itself (`checkValidity`) would have answered false, as the second conjunct
shows.  Concretely: on the empty registry, `isValid` of the unknown handle 5
aborts. -/
theorem isValid_dead_handle_aborts :
    mexFunction ⟨0, []⟩ 1 [.str "isValid", .handleTok 5] =
      ⟨⟨0, []⟩, .error .invalidHandle, none⟩ ∧
    checkValidity ⟨0, []⟩ (some (.handleTok 5)) = false :=
  ⟨rfl, rfl⟩

/-- C2, counterexample: the claim says every unknown verb fails with
`UnrecognizedCommand` for every argument sequence, but the verb
`frobnicate` with no further arguments aborts with the generic
`Second input not found.` message (myFavDouble_mex.cpp line 108), a
different error from `Command not recognized.` (line 216). -/
theorem unknownVerb_counterexample :
    mexFunction ⟨0, []⟩ 0 [.str "frobnicate"] =
      ⟨⟨0, []⟩, .error (.errMsgTxt msgSecondInput), none⟩ ∧
    msgSecondInput ≠ msgCommandNotRecognized :=
  ⟨rfl, by decide⟩

/-- C2, amended: an unknown verb (readable as a command string) fails with
`Command not recognized.` provided at least two further arguments are
supplied and the tokens in positions 1 and 2 both resolve; the registry is
left unchanged and nothing is printed. -/
theorem unknownVerb_unrecognized (reg : Registry) (nlhs : Nat) (cmd : String)
    (a1 a2 : MxArray) (rest : List MxArray) (v1 v2 : myClass)
    (hlen : cmd.length < 64)
    (hn1 : cmd ≠ "new") (hn2 : cmd ≠ "newFromMatlab") (hn3 : cmd ≠ "delete")
    (hn4 : cmd ≠ "isValid") (hn5 : cmd ≠ "display") (hn6 : cmd ≠ "double")
    (hn7 : cmd ≠ "plus")
    (hr1 : recoverObjFromMatlabId reg (some a1) = .ok v1)
    (hr2 : recoverObjFromMatlabId reg (some a2) = .ok v2) :
    mexFunction reg nlhs (.str cmd :: a1 :: a2 :: rest) =
      ⟨reg, .error (.errMsgTxt msgCommandNotRecognized), none⟩ := by
  simp [mexFunction, mxGetString, hlen, hn1, hn2, hn3, hn4, hn5, hn6, hn7,
    hr1, hr2]

/-- C2, witness for the amended theorem: the verb `frobnicate` with two
resolvable handle tokens fails with `Command not recognized.`. -/
theorem unknownVerb_unrecognized_witness :
    mexFunction regW 0 [.str "frobnicate", .handleTok 0, .handleTok 0] =
      ⟨regW, .error (.errMsgTxt msgCommandNotRecognized), none⟩ :=
  unknownVerb_unrecognized regW 0 "frobnicate" (.handleTok 0) (.handleTok 0)
    [] ⟨1, 2⟩ ⟨1, 2⟩ (by decide) (by decide) (by decide) (by decide)
    (by decide) (by decide) (by decide) (by decide) rfl rfl

/-- C5: `newFromMatlab` with a double array whose shape is not 1-by-1 aborts
with the `myClass:invalidSize` error (the spec's `InvalidArgument` kind,
raised at myClass.hpp lines 37-38), leaves the registry unchanged, and
returns no handle. -/
theorem newFromMatlab_badShape_rejected (reg : Registry) (nlhs : Nat)
    (hnlhs : nlhs ≤ 1) (m n : Nat) (re : List ℚ) (im : Option (List ℚ))
    (hshape : m ≠ 1 ∨ n ≠ 1) :
    mexFunction reg nlhs [.str "newFromMatlab", .num m n re im] =
      ⟨reg, .error (.errMsgIdAndTxt idInvalidSize msgInvalidSize), none⟩ := by
  have hleft : ¬ (1 < nlhs) := by omega
  have hlen : ("newFromMatlab" : String).length < 64 := by decide
  have hne1 : ("newFromMatlab" : String) ≠ "new" := by decide
  simp [mexFunction, mxGetString, myClassOfMx, hleft, hshape, hlen, hne1]

/-- C5, witness: a 2-by-3 real block is rejected with `myClass:invalidSize`
on the empty registry. -/
theorem newFromMatlab_badShape_rejected_witness :
    mexFunction ⟨0, []⟩ 1 [.str "newFromMatlab", .num 2 3 [1, 2, 3, 4, 5, 6] none] =
      ⟨⟨0, []⟩, .error (.errMsgIdAndTxt idInvalidSize msgInvalidSize), none⟩ :=
  newFromMatlab_badShape_rejected ⟨0, []⟩ 1 (by decide) 2 3 [1, 2, 3, 4, 5, 6]
    none (by decide)

/-- C7: a value with zero imaginary part exports (`toDouble`) to a 1-by-1
real array with no imaginary component, and constructing from the raw real
scalar 3.0 and exporting again yields the same absent-imaginary pair. -/
theorem realOnly_roundTrip (a : myClass) (h : a.valueI = 0) :
    a.toDouble = .num 1 1 [a.valueR] none ∧
    (myClassOfMx 1 1 [3] none).map myClass.toDouble = .ok (.num 1 1 [3] none) := by
  constructor
  · simp [myClass.toDouble, h]
  · rfl

/-- C7, witness: the real-only value 5 + 0i exports with an absent imaginary
component, and the 3.0 round trip holds. -/
theorem realOnly_roundTrip_witness :
    (⟨5, 0⟩ : myClass).toDouble = .num 1 1 [5] none ∧
    (myClassOfMx 1 1 [3] none).map myClass.toDouble = .ok (.num 1 1 [3] none) :=
  realOnly_roundTrip ⟨5, 0⟩ rfl

/-- C9: the four ways myClass.hpp computes a sum agree — `plus_new`
(lines 131-137), `plus_new_ptr` (lines 142-149), copy-construct followed by
`operator+=` (lines 21 and 101-106), and `operator+` (lines 108-114) all
yield the component-wise sum of the two operands.  In the embedding the only
mutating operation, `operator+=`, is the returned state of its left operand,
and every variant reads `a` and `b` without writing them, so none modifies
its operands. -/
theorem addition_implementations_agree (a b : myClass) :
    a.plus_new b = ⟨a.valueR + b.valueR, a.valueI + b.valueI⟩ ∧
    a.plus_new_ptr b = a.plus_new b ∧
    a.copyCtor.opPlusEq b = a.plus_new b ∧
    a.opPlus b = a.plus_new b :=
  ⟨rfl, rfl, rfl, rfl⟩

/-- C10: a call with no inputs at all, or whose first input cannot be read as
a string of fewer than 64 characters, aborts with the first-input message
(myFavDouble_mex.cpp lines 27-29) before any verb dispatch, handle
resolution, or effect: the registry is unchanged and nothing is printed or
returned. -/
theorem firstInput_guard (reg : Registry) (nlhs : Nat) (prhs : List MxArray)
    (h : prhs = [] ∨ ∃ a rest, prhs = a :: rest ∧ mxGetString a = none) :
    mexFunction reg nlhs prhs = ⟨reg, .error (.errMsgTxt msgFirstInput), none⟩ := by
  rcases h with h | ⟨a, rest, hcons, ha⟩
  · subst h; rfl
  · subst hcons
    simp [mexFunction, ha]

/-- C10, witness: the zero-argument call on the empty registry aborts with
the first-input message. -/
theorem firstInput_guard_witness :
    mexFunction ⟨0, []⟩ 0 [] = ⟨⟨0, []⟩, .error (.errMsgTxt msgFirstInput), none⟩ :=
  firstInput_guard ⟨0, []⟩ 0 [] (Or.inl rfl)

/-- Under well-formedness the next handle to be minted is not yet live. -/
theorem Registry.resolve_next_none {r : Registry} (hWF : r.WF) :
    r.resolve r.next = none := by
  unfold Registry.resolve
  cases e : r.entries.find? (fun p => p.1 == r.next) with
  | none => rfl
  | some p =>
    have hmem := List.mem_of_find?_eq_some e
    have hkey := List.find?_some e
    simp only [beq_iff_eq] at hkey
    have hlt := hWF p hmem
    omega

/-- C3: a handle argument that fails to resolve aborts the whole command with
`InvalidHandle`, the registry it leaves behind is the one it was called with,
and nothing is printed — for the copying `new`, for `delete`, for `isValid`,
`display` and `double` (resolved at myFavDouble_mex.cpp line 112), and for
`plus` with the bad handle in either position (lines 112 and 159); in
particular no result entry is ever registered. -/
theorem resolutionFailure_aborts (reg : Registry) (bad good : MxArray)
    (gv : myClass)
    (hbad : recoverObjFromMatlabId reg (some bad) = .error .invalidHandle)
    (hgood : recoverObjFromMatlabId reg (some good) = .ok gv) :
    mexFunction reg 1 [.str "new", bad] = ⟨reg, .error .invalidHandle, none⟩ ∧
    mexFunction reg 0 [.str "delete", bad] = ⟨reg, .error .invalidHandle, none⟩ ∧
    mexFunction reg 1 [.str "isValid", bad] = ⟨reg, .error .invalidHandle, none⟩ ∧
    mexFunction reg 0 [.str "display", bad] = ⟨reg, .error .invalidHandle, none⟩ ∧
    mexFunction reg 1 [.str "double", bad] = ⟨reg, .error .invalidHandle, none⟩ ∧
    mexFunction reg 1 [.str "plus", bad, good] = ⟨reg, .error .invalidHandle, none⟩ ∧
    mexFunction reg 1 [.str "plus", good, bad] = ⟨reg, .error .invalidHandle, none⟩ := by
  have hdel := destroyObject_error_of_unresolved reg bad hbad
  refine ⟨?_, ?_, ?_, ?_, ?_, ?_, ?_⟩ <;>
    simp +decide [mexFunction, mxGetString, hbad, hgood, hdel]

/-- C3, witness: with one live object (handle 0), every command given the
dead handle 9 aborts with `InvalidHandle` and leaves the registry as it was. -/
theorem resolutionFailure_aborts_witness :
    mexFunction regW 1 [.str "new", .handleTok 9] = ⟨regW, .error .invalidHandle, none⟩ ∧
    mexFunction regW 0 [.str "delete", .handleTok 9] = ⟨regW, .error .invalidHandle, none⟩ ∧
    mexFunction regW 1 [.str "isValid", .handleTok 9] = ⟨regW, .error .invalidHandle, none⟩ ∧
    mexFunction regW 0 [.str "display", .handleTok 9] = ⟨regW, .error .invalidHandle, none⟩ ∧
    mexFunction regW 1 [.str "double", .handleTok 9] = ⟨regW, .error .invalidHandle, none⟩ ∧
    mexFunction regW 1 [.str "plus", .handleTok 9, .handleTok 0] = ⟨regW, .error .invalidHandle, none⟩ ∧
    mexFunction regW 1 [.str "plus", .handleTok 0, .handleTok 9] = ⟨regW, .error .invalidHandle, none⟩ :=
  resolutionFailure_aborts regW (.handleTok 9) (.handleTok 0) ⟨1, 2⟩ rfl rfl

/-- C4: `plus` on two resolvable handles of a well-formed registry succeeds,
returning a single fresh handle distinct from both operands, under which the
component-wise sum is registered, while both operand handles still resolve to
their unmodified values. -/
theorem plus_valid_handles (reg : Registry) (hWF : reg.WF) (h1 h2 : Nat)
    (v1 v2 : myClass) (hr1 : reg.resolve h1 = some v1)
    (hr2 : reg.resolve h2 = some v2) :
    ∃ h3 reg2,
      mexFunction reg 1 [.str "plus", .handleTok h1, .handleTok h2] =
        ⟨reg2, .ok [.handleTok h3], none⟩ ∧
      h3 ≠ h1 ∧ h3 ≠ h2 ∧
      reg2.resolve h3 = some ⟨v1.valueR + v2.valueR, v1.valueI + v2.valueI⟩ ∧
      reg2.resolve h1 = some v1 ∧ reg2.resolve h2 = some v2 := by
  have hlt1 := Registry.resolve_lt_next hWF hr1
  have hlt2 := Registry.resolve_lt_next hWF hr2
  refine ⟨reg.next, (reg.register (v1.plus_new v2)).1, ?_, by omega, by omega,
    ?_, ?_, ?_⟩
  · simp +decide [mexFunction, mxGetString, recoverObjFromMatlabId, hr1, hr2,
      createMatlabIdFromObj, Registry.register]
  · simpa [Registry.register, myClass.plus_new] using
      Registry.resolve_register_self reg (v1.plus_new v2)
  · rw [Registry.resolve_register_other reg _ (by omega)]; exact hr1
  · rw [Registry.resolve_register_other reg _ (by omega)]; exact hr2

/-- C4, witness: with live handles 0 (value 1 + 2i) and 1 (value 3 + 5i),
`plus` returns a fresh third handle carrying 4 + 7i and leaves both operands
resolvable and unchanged. -/
theorem plus_valid_handles_witness :
    ∃ h3 reg2,
      mexFunction regW2 1 [.str "plus", .handleTok 0, .handleTok 1] =
        ⟨reg2, .ok [.handleTok h3], none⟩ ∧
      h3 ≠ 0 ∧ h3 ≠ 1 ∧
      reg2.resolve h3 = some ⟨(1 : ℚ) + 3, (2 : ℚ) + 5⟩ ∧
      reg2.resolve 0 = some ⟨1, 2⟩ ∧ reg2.resolve 1 = some ⟨3, 5⟩ :=
  plus_valid_handles regW2 (by decide) 0 1 ⟨1, 2⟩ ⟨3, 5⟩ rfl rfl

/-- C8: `new` with no extra argument registers the default value 0 + 0i under
a handle that was not previously live; `new` with one resolvable handle
argument registers a copy of the resolved value under a fresh handle distinct
from the source handle, and the source handle still resolves to the same
value afterwards. -/
theorem new_command_fresh (reg : Registry) (hWF : reg.WF) (h0 : Nat)
    (v : myClass) (hres : reg.resolve h0 = some v) :
    (∃ h reg2, mexFunction reg 1 [.str "new"] = ⟨reg2, .ok [.handleTok h], none⟩ ∧
      reg.resolve h = none ∧ reg2.resolve h = some ⟨0, 0⟩) ∧
    (∃ h reg2, mexFunction reg 1 [.str "new", .handleTok h0] =
        ⟨reg2, .ok [.handleTok h], none⟩ ∧
      h ≠ h0 ∧ reg2.resolve h = some v ∧ reg2.resolve h0 = some v) := by
  have hlt := Registry.resolve_lt_next hWF hres
  constructor
  · refine ⟨reg.next, (reg.register myClass.mkDefault).1, ?_, ?_, ?_⟩
    · simp +decide [mexFunction, mxGetString, createMatlabIdFromObj,
        Registry.register]
    · exact Registry.resolve_next_none hWF
    · simpa [Registry.register, myClass.mkDefault] using
        Registry.resolve_register_self reg myClass.mkDefault
  · refine ⟨reg.next, (reg.register v.copyCtor).1, ?_, by omega, ?_, ?_⟩
    · simp +decide [mexFunction, mxGetString, recoverObjFromMatlabId, hres,
        createMatlabIdFromObj, Registry.register]
    · simpa [Registry.register, myClass.copyCtor] using
        Registry.resolve_register_self reg v.copyCtor
    · rw [Registry.resolve_register_other reg _ (by omega)]; exact hres

/-- C8, witness: on a registry with one live object (handle 0, value 1 + 2i),
`new` registers 0 + 0i under the fresh handle, and `new` with handle 0
registers a copy under a fresh handle distinct from 0. -/
theorem new_command_fresh_witness :
    (∃ h reg2, mexFunction regW 1 [.str "new"] = ⟨reg2, .ok [.handleTok h], none⟩ ∧
      regW.resolve h = none ∧ reg2.resolve h = some ⟨0, 0⟩) ∧
    (∃ h reg2, mexFunction regW 1 [.str "new", .handleTok 0] =
        ⟨reg2, .ok [.handleTok h], none⟩ ∧
      h ≠ 0 ∧ reg2.resolve h = some ⟨1, 2⟩ ∧ reg2.resolve 0 = some ⟨1, 2⟩) :=
  new_command_fresh regW (by decide) 0 ⟨1, 2⟩ rfl

/-- C6, counterexample: the claim says every verb rejects a wrong argument
count with an arity error naming the verb, but `display` has no
argument-count check at all (myFavDouble_mex.cpp lines 140-143): called with
a surplus third input it raises no error and its effect runs, printing the
resolved value. -/
theorem arityCheck_counterexample :
    mexFunction regW 0 [.str "display", .handleTok 0, .str "extra"] =
      ⟨regW, .ok [], some (1, some 2)⟩ :=
  rfl

/-- C6, amended: arity checking is per-verb and partial.  `new`, `delete` and
`isValid` reject surplus inputs with an error naming the verb and
`newFromMatlab` with an error naming the class instead of the verb, in each
case without running the effect; `display`, `double` and `plus` ignore
surplus inputs and run their effect; and a post-dispatch verb called without
its second input aborts with the generic second-input message that names no
verb. -/
theorem arityCheck_per_verb (reg : Registry) (nl : Nat) (x y : MxArray)
    (rest : List MxArray) (good good2 : MxArray) (v v2 : myClass)
    (hres : recoverObjFromMatlabId reg (some good) = .ok v)
    (hres2 : recoverObjFromMatlabId reg (some good2) = .ok v2) :
    mexFunction reg 1 (.str "new" :: x :: y :: rest) =
      ⟨reg, .error (.errMsgTxt msgNewTooMany), none⟩ ∧
    mexFunction reg 1 (.str "newFromMatlab" :: x :: y :: rest) =
      ⟨reg, .error (.errMsgIdAndTxt idInvalidNumInputs msgInvalidNumInputs), none⟩ ∧
    mexFunction reg nl (.str "delete" :: x :: y :: rest) =
      ⟨reg, .error (.errMsgTxt msgDeleteWrongArgs), none⟩ ∧
    mexFunction reg 1 (.str "isValid" :: good :: y :: rest) =
      ⟨reg, .error (.errMsgTxt msgIsValidUnexpected), none⟩ ∧
    mexFunction reg nl (.str "display" :: good :: y :: rest) =
      ⟨reg, .ok [], some v.displayOut⟩ ∧
    mexFunction reg 1 (.str "double" :: good :: y :: rest) =
      ⟨reg, .ok [v.toDouble], none⟩ ∧
    mexFunction reg 1 (.str "plus" :: good :: good2 :: y :: rest) =
      ⟨(reg.register (v.plus_new v2)).1, .ok [.handleTok reg.next], none⟩ ∧
    mexFunction reg nl [.str "plus"] =
      ⟨reg, .error (.errMsgTxt msgSecondInput), none⟩ := by
  refine ⟨?_, ?_, ?_, ?_, ?_, ?_, ?_, ?_⟩ <;>
    simp +decide [mexFunction, mxGetString, hres, hres2,
      createMatlabIdFromObj, Registry.register]
  rw [if_neg (by omega), if_neg (by omega)]

/-- C6, witness for the amended theorem: concrete surplus-argument calls on a
registry with handles 0 and 1 behave verb by verb as the amendment states. -/
theorem arityCheck_per_verb_witness :
    mexFunction regW2 1 [.str "new", .handleTok 0, .handleTok 0] =
      ⟨regW2, .error (.errMsgTxt msgNewTooMany), none⟩ ∧
    mexFunction regW2 1 [.str "newFromMatlab", .handleTok 0, .handleTok 0] =
      ⟨regW2, .error (.errMsgIdAndTxt idInvalidNumInputs msgInvalidNumInputs), none⟩ ∧
    mexFunction regW2 0 [.str "delete", .handleTok 0, .handleTok 0] =
      ⟨regW2, .error (.errMsgTxt msgDeleteWrongArgs), none⟩ ∧
    mexFunction regW2 1 [.str "isValid", .handleTok 0, .handleTok 0] =
      ⟨regW2, .error (.errMsgTxt msgIsValidUnexpected), none⟩ ∧
    mexFunction regW2 0 [.str "display", .handleTok 0, .handleTok 0] =
      ⟨regW2, .ok [], some (myClass.displayOut ⟨1, 2⟩)⟩ ∧
    mexFunction regW2 1 [.str "double", .handleTok 0, .handleTok 0] =
      ⟨regW2, .ok [myClass.toDouble ⟨1, 2⟩], none⟩ ∧
    mexFunction regW2 1 [.str "plus", .handleTok 0, .handleTok 1, .handleTok 0] =
      ⟨(regW2.register (myClass.plus_new ⟨1, 2⟩ ⟨3, 5⟩)).1, .ok [.handleTok regW2.next], none⟩ ∧
    mexFunction regW2 0 [.str "plus"] =
      ⟨regW2, .error (.errMsgTxt msgSecondInput), none⟩ :=
  arityCheck_per_verb regW2 0 (.handleTok 0) (.handleTok 0) [] (.handleTok 0)
    (.handleTok 1) ⟨1, 2⟩ ⟨3, 5⟩ rfl rfl
